import Mathlib

/- Shallow embedding of the huntfx/deadline-control repository: the Deadline
   slave/pool/group object model (src/deadline_control/base.py, slaves.py,
   pools.py, groups.py, utils.py).  Python strings are modelled as lists of
   character code points; Python str.lower/str.upper are modelled over the
   ASCII range, which is the range the repository's entity names use. -/

/-- A Python string, as a list of character code points. -/
abbrev PyStr := List Nat

/-- Conversion from a Lean string literal to the code-point model. -/
def strName (s : String) : PyStr := s.data.map Char.toNat

/-- Model of Python str.lower on one code point (ASCII range). -/
def lowerChar (c : Nat) : Nat := if 65 ≤ c ∧ c ≤ 90 then c + 32 else c

/-- Model of Python str.upper on one code point (ASCII range). -/
def upperChar (c : Nat) : Nat := if 97 ≤ c ∧ c ≤ 122 then c - 32 else c

/-- Model of Python str.lower. -/
def pyLower (s : PyStr) : PyStr := s.map lowerChar

/-- Model of Python str.upper. -/
def pyUpper (s : PyStr) : PyStr := s.map upperChar

/- ---------------------------------------------------------------------
   base.py: DeadlineItem
   --------------------------------------------------------------------- -/

/-- Embeds base.py DeadlineItem: a named handle for a remote entity.  The
    constructor accepts a raw name (the DeadlineItem branch of the source
    constructor merely copies the other item's name). -/
structure DeadlineItem where
  name : PyStr
deriving DecidableEq, Repr

/-- DeadlineItem construction from a raw name (base.py line 14). -/
def mkItem (n : PyStr) : DeadlineItem := ⟨n⟩

/-- Embeds base.py DeadlineItem.__eq__ for two items of the same type:
    both names are lower-cased before comparison (base.py lines 28-31). -/
def itemEq (a b : DeadlineItem) : Bool := pyLower a.name == pyLower b.name

/-- Embeds base.py DeadlineItem.__repr__: TypeName(lowered-name-repr)
    (base.py lines 19-20).  Python hashes the item by hashing this string
    (base.py lines 25-26), so two items with equal repr have equal hash. -/
def itemRepr (typeName : PyStr) (a : DeadlineItem) : PyStr :=
  typeName ++ strName ("(") ++ [39] ++ pyLower a.name ++ [39] ++ strName (")")

/- ---------------------------------------------------------------------
   base.py: DeadlineList, as a state machine over (items, fired hooks)
   --------------------------------------------------------------------- -/

/-- A side-effect hook fired by a DeadlineList mutation: trigger_add carries
    the converted item, trigger_remove carries the raw argument (base.py
    line 120 passes `item`, not the converted one), trigger_set carries the
    snapshot of the items taken before the mutation. -/
inductive DLEvent where
  | add (item : DeadlineItem)
  | rem (raw : PyStr)
  | set (previous : List DeadlineItem)
deriving DecidableEq, Repr

/-- State of one DeadlineList: its items plus the hooks fired so far. -/
structure DLState where
  items : List DeadlineItem
  events : List DLEvent
deriving DecidableEq, Repr

/-- Embeds base.py DeadlineList.append (lines 105-109): convert, append,
    fire trigger_add with the converted item. -/
def dlAppend (st : DLState) (x : PyStr) : DLState :=
  let item := mkItem x
  ⟨st.items ++ [item], st.events ++ [DLEvent.add item]⟩

/-- Embeds base.py DeadlineList.__setitem__ for a full-slice assignment
    P[:] = xs (lines 84-93): snapshot, replace the items with the converted
    list, fire trigger_set with the snapshot. -/
def dlSetSlice (st : DLState) (xs : List PyStr) : DLState :=
  ⟨xs.map mkItem, st.events ++ [DLEvent.set st.items]⟩

/-- Embeds base.py DeadlineList.__setitem__ for an integer index
    (lines 84-93).  An out-of-range index raises IndexError from the list
    assignment, before trigger_set fires; that is modelled as none. -/
def dlSetIndex (st : DLState) (i : Nat) (x : PyStr) : Option DLState :=
  if i < st.items.length then
    some ⟨st.items.set i (mkItem x), st.events ++ [DLEvent.set st.items]⟩
  else none

/-- Python list.insert clamps the index to the list length. -/
def pyInsertAt (l : List DeadlineItem) (i : Nat) (a : DeadlineItem) : List DeadlineItem :=
  l.take i ++ [a] ++ l.drop i

/-- Embeds base.py DeadlineList.insert (lines 111-115): snapshot, insert the
    converted item, fire trigger_set with the snapshot. -/
def dlInsert (st : DLState) (i : Nat) (x : PyStr) : DLState :=
  ⟨pyInsertAt st.items i (mkItem x), st.events ++ [DLEvent.set st.items]⟩

/-- Embeds base.py DeadlineList.__delitem__ (lines 95-99): snapshot, delete,
    fire trigger_set with the snapshot; IndexError modelled as none. -/
def dlDelItem (st : DLState) (i : Nat) : Option DLState :=
  if i < st.items.length then
    some ⟨st.items.eraseIdx i, st.events ++ [DLEvent.set st.items]⟩
  else none

/-- Embeds base.py DeadlineList.pop (lines 122-127): snapshot, pop, fire
    trigger_set with the snapshot, return the popped item; IndexError
    modelled as none. -/
def dlPop (st : DLState) (i : Nat) : Option (DLState × DeadlineItem) :=
  match st.items[i]? with
  | some item => some (⟨st.items.eraseIdx i, st.events ++ [DLEvent.set st.items]⟩, item)
  | none => none

/-- Python list.remove: drop the first element equal (DeadlineItem equality,
    hence case-insensitive) to the target, or fail with ValueError (none). -/
def removeFirstItem : List DeadlineItem → DeadlineItem → Option (List DeadlineItem)
  | [], _ => none
  | y :: r, t => if itemEq y t then some r else (removeFirstItem r t).map (y :: ·)

/-- Embeds base.py DeadlineList.remove (lines 117-120): list.remove of the
    converted item (ValueError propagates before trigger_remove fires, so on
    failure no hook fires and the items are unchanged), then trigger_remove
    with the raw argument. -/
def dlRemove (st : DLState) (x : PyStr) : Option DLState :=
  (removeFirstItem st.items (mkItem x)).map
    (fun items2 => ⟨items2, st.events ++ [DLEvent.rem x]⟩)

/- ---------------------------------------------------------------------
   Remote status strings and Python exceptions
   --------------------------------------------------------------------- -/

/-- A status string returned by a remote Deadline call.  The source compares
    the result against the literal sentinels Success and, for settings
    saves, No updates required; any other string is kept verbatim. -/
inductive RStatus where
  | Success
  | NoUpdatesRequired
  | Other (text : PyStr)
deriving DecidableEq, Repr

/-- The Python exceptions the embedded code paths can raise. -/
inductive PyErr where
  | typeError
  | nameError
  | attributeError
  | valueError
  | keyError
  | stopIteration
deriving DecidableEq, Repr

/- ---------------------------------------------------------------------
   slaves.py: settings dicts and Slave.update_settings
   --------------------------------------------------------------------- -/

/-- A value stored in a slave settings dict: a scalar (Python bools are the
    scalars 1/0, strings and numbers are scalars too) or a nested dict. -/
inductive SVal where
  | prim : Nat → SVal
  | dict : List (PyStr × SVal) → SVal
deriving Repr

/-- A settings dict, as an ordered association list with exact string keys
    (Python dict keys are case-sensitive). -/
abbrev SDict := List (PyStr × SVal)

/-- Python dict subscript read: first binding of the key, KeyError as none. -/
def lookupS (k : PyStr) : SDict → Option SVal
  | [] => none
  | (k1, v1) :: r => if k1 = k then some v1 else lookupS k r

/-- Python dict subscript write: replace the binding of the key, adding it
    at the end when absent. -/
def setS (k : PyStr) (v : SVal) : SDict → SDict
  | [] => [(k, v)]
  | (k1, v1) :: r => if k1 = k then (k1, v) :: r else (k1, v1) :: setS k v r

/-- Python equality between a stored settings value and a scalar keyword
    value: a nested dict never equals a scalar. -/
def svalIsPrimEq (w : SVal) (n : Nat) : Bool :=
  match w with
  | SVal.prim m => m == n
  | SVal.dict _ => false

mutual

/-- Embeds slaves.py Slave._write_settings (lines 113-137), split into the
    per-value merge and the dict walk.  writeSettingsVal merges one keyword
    value into the stored value it addresses: a scalar keyword overwrites the
    stored value only when it differs (the updated flag records that); a
    dict-valued keyword loops over its items against the stored value, so an
    empty keyword dict is a no-op even against a scalar, while a non-empty
    one subscripts the stored value (TypeError, modelled none, when it is a
    scalar) and recurses.  Exceptions are modelled as none; the in-place
    mutation of the source is modelled by threading the rebuilt dict. -/
def writeSettingsVal : SVal → SVal → Option (SVal × Bool)
  | SVal.prim n, w =>
    if svalIsPrimEq w n then some (w, false) else some (SVal.prim n, true)
  | SVal.dict sub, SVal.prim m =>
    match sub with
    | [] => some (SVal.prim m, false)
    | _ :: _ => none
  | SVal.dict sub, SVal.dict subS =>
    match writeSettings sub subS with
    | none => none
    | some (subS2, u) => some (SVal.dict subS2, u)

/-- The dict walk of Slave._write_settings: visit the keyword items in
    order, looking each key up in the settings dict (KeyError, modelled
    none, when absent), merging the value and accumulating the updated
    flag. -/
def writeSettings : SDict → SDict → Option (SDict × Bool)
  | [], settings => some (settings, false)
  | (k, v) :: rest, settings =>
    match lookupS k settings with
    | none => none
    | some w =>
      match writeSettingsVal v w with
      | none => none
      | some (w2, u1) =>
        match writeSettings rest (setS k w2 settings) with
        | none => none
        | some (s2, u2) => some (s2, u1 || u2)

end

/-- State of one Slave whose settings cache is populated: the cached settings
    dict, the status the remote SaveSlaveSettings call would return, and a
    count of remote save calls issued so far. -/
structure SlaveSettingsState where
  settings : SDict
  saveResult : RStatus
  saveCalls : Nat

/-- Embeds slaves.py Slave.update_settings (lines 139-157): write the new
    values into the cached settings dict; when anything changed, issue one
    remote SaveSlaveSettings call and use its status, otherwise use the
    literal No-updates-required sentinel without a remote call; return
    whether the status is one of the two success sentinels. -/
def updateSettings (st : SlaveSettingsState) (kwargs : SDict) :
    Option (SlaveSettingsState × Bool) :=
  match writeSettings kwargs st.settings with
  | none => none
  | some (s2, updated) =>
    if updated then
      some ({ st with settings := s2, saveCalls := st.saveCalls + 1 },
        st.saveResult == RStatus.Success || st.saveResult == RStatus.NoUpdatesRequired)
    else
      some ({ st with settings := s2 }, true)

/- ---------------------------------------------------------------------
   slaves.py / groups.py: GroupSlaves.trigger_set and the cascading
   SlaveGroups.remove, against a model of the remote membership state
   --------------------------------------------------------------------- -/

/-- Case-insensitive name equality, the equality DeadlineItem instances use. -/
def nameEq (a b : PyStr) : Bool := pyLower a == pyLower b

/-- Membership of a name in a list of names, by DeadlineItem equality. -/
def containsName (l : List PyStr) (x : PyStr) : Bool := l.any (fun y => nameEq y x)

/-- Python list.remove over a name list with DeadlineItem equality: drop the
    first matching element, ValueError as none. -/
def removeFirstName : List PyStr → PyStr → Option (List PyStr)
  | [], _ => none
  | y :: r, g => if nameEq y g then some r else (removeFirstName r g).map (y :: ·)

/-- A remote call issued while changing group membership. -/
inductive GrpCall where
  | setGroupsForSlave (slaves : List PyStr) (group : PyStr)
  | removeGroupFromSlave (slave : PyStr) (group : PyStr)
deriving DecidableEq, Repr

/-- World state for group-membership changes: the remote service's record of
    each slave's groups, plus the trace of mutating remote calls.  Per-name
    info caches are not part of this world: the class-level Slave._INFO_CACHE
    never receives fetched values (slaves.py stores fetches only on
    `self._info`), so every freshly constructed Slave refetches its info from
    the remote service. -/
structure GrpWorld where
  slaveGrps : PyStr → List PyStr
  calls : List GrpCall

/-- Modelled from the spec: the remote set-group-for-slaves(bulk) operation
    of the external RemoteService (spec section 6; the transport itself is
    outside src/).  Called by GroupSlaves.trigger_set with the added slaves
    and the one group; afterwards the group is a member of each listed
    slave's remote membership. -/
def setGroupsRemote (w : GrpWorld) (slaves : List PyStr) (g : PyStr) : GrpWorld :=
  { slaveGrps := fun x => if slaves.contains x then [g] else w.slaveGrps x,
    calls := w.calls ++ [GrpCall.setGroupsForSlave slaves g] }

/-- Embeds `Slave(s).groups.remove(g)` as performed by GroupSlaves.trigger_set
    (slaves.py lines 275-276) for a freshly constructed Slave: the groups
    proxy is built from the slave's info fetched from the remote service
    (the shared info cache is never populated, see GrpWorld); list.remove
    drops the first matching group or raises ValueError; then
    SlaveGroups.trigger_remove (groups.py lines 126-131) issues one remote
    RemoveGroupFromSlave call and patches the instance's cached info with the
    remaining groups.  Returns the updated world and the patched instance
    membership. -/
def slaveGroupsRemove (w : GrpWorld) (s g : PyStr) :
    Except PyErr (GrpWorld × List PyStr) :=
  let grps := w.slaveGrps s
  match removeFirstName grps g with
  | none => Except.error PyErr.valueError
  | some grps2 =>
    Except.ok
      ({ slaveGrps := fun x =>
           if x = s then (w.slaveGrps s).filter (fun y => !(nameEq y g)) else w.slaveGrps x,
         calls := w.calls ++ [GrpCall.removeGroupFromSlave s g] }, grps2)

/-- The cascade loop of GroupSlaves.trigger_set: remove the group from each
    removed slave in turn; an exception aborts the remaining iterations.
    Also accumulates each removed slave's patched instance membership. -/
def cascadeRemovals (g : PyStr) :
    GrpWorld → List PyStr → List (PyStr × List PyStr) →
    Except PyErr (GrpWorld × List (PyStr × List PyStr))
  | w, [], acc => Except.ok (w, acc.reverse)
  | w, s :: rest, acc =>
    match slaveGroupsRemove w s g with
    | Except.error e => Except.error e
    | Except.ok (w2, grps2) => cascadeRemovals g w2 rest ((s, grps2) :: acc)

/-- Embeds slaves.py GroupSlaves.trigger_set (lines 261-276): diff the
    previous and new membership as sets (modelled as order-preserving
    filters with DeadlineItem equality), issue one remote SetGroupsForSlave
    call for the added slaves with this group, then remove the group from
    each removed slave's own group proxy. -/
def groupSlavesTriggerSet (w : GrpWorld) (g : PyStr)
    (previous newItems : List PyStr) :
    Except PyErr (GrpWorld × List (PyStr × List PyStr)) :=
  let added := newItems.filter (fun s => !(containsName previous s))
  let removed := previous.filter (fun s => !(containsName newItems s))
  let w1 := setGroupsRemote w added g
  cascadeRemovals g w1 removed []

/-- Reading `Slave(s).groups` on a freshly constructed Slave: the shared
    info cache holds no fetched values (see GrpWorld), so the membership is
    fetched from the remote service. -/
def slaveGroupsFresh (w : GrpWorld) (s : PyStr) : List PyStr := w.slaveGrps s

/- ---------------------------------------------------------------------
   pools.py / groups.py: create and delete, with the all-names caches
   --------------------------------------------------------------------- -/

/-- A remote lifecycle call issued by create/delete. -/
inductive FarmCall where
  | addPool (n : PyStr)
  | deletePool (n : PyStr)
  | addGroup (n : PyStr)
  | deleteGroup (n : PyStr)
deriving DecidableEq, Repr

/-- World state for pool/group lifecycle operations: the class-level
    all-names caches (none models the NOT_SET sentinel), the remote slave
    membership of each group and pool (feeding the member check in delete),
    the statuses the remote lifecycle calls return, and the call trace. -/
structure FarmWorld where
  poolsCache : Option (List PyStr)
  groupsCache : Option (List PyStr)
  poolSlaves : PyStr → List PyStr
  groupSlaves : PyStr → List PyStr
  addPoolStatus : RStatus
  deletePoolStatus : RStatus
  addGroupStatus : RStatus
  deleteGroupStatus : RStatus
  calls : List FarmCall

/-- The attributes of the DeadlineCon connection object, as documented by
    the repository itself in the utils.py module docstring (Main section). -/
def apiMainSections : List String :=
  ["AuthenticationModeEnabled", "Balancer", "EnableAuthentication", "Groups",
   "JobReports", "Jobs", "LimitGroups", "MappedPaths", "MaximumPriority",
   "Plugins", "Pools", "Pulse", "Repository", "SetAuthenticationCredentials",
   "Slaves", "SlavesRenderingJob", "TaskReports", "Tasks", "Users"]

/-- Attribute lookup on the connection object: AttributeError when the
    attribute is not part of the documented surface. -/
def apiHasSection (s : String) : Bool := apiMainSections.contains s

/-- Python list.remove over raw cached name strings (exact equality, the
    all-names caches hold plain strings). -/
def removeFirstExact : List PyStr → PyStr → Option (List PyStr)
  | [], _ => none
  | y :: r, n => if y = n then some r else (removeFirstExact r n).map (y :: ·)

/-- Embeds pools.py Pool.create (lines 59-68): remote AddPool, append the
    name to the all-names cache only when the status is Success and the
    cache is populated, return whether the status is Success. -/
def poolCreate (w : FarmWorld) (n : PyStr) : FarmWorld × Bool :=
  let result := w.addPoolStatus
  let w1 := { w with calls := w.calls ++ [FarmCall.addPool n] }
  let w2 :=
    if result == RStatus.Success then
      match w1.poolsCache with
      | some l => { w1 with poolsCache := some (l ++ [n]) }
      | none => w1
    else w1
  (w2, result == RStatus.Success)

/-- Embeds groups.py Group.create (lines 65-74): the source reads
    `api.Group.AddGroup`, but the connection object has no attribute Group
    (the repository's own utils.py docstring lists the surface, and
    Group.delete uses `api.Groups`), so attribute lookup fails before any
    remote call; the branch below the lookup embeds lines 68-74 as written. -/
def groupCreate (w : FarmWorld) (n : PyStr) : Except PyErr (FarmWorld × Bool) :=
  if apiHasSection ("Group") then
    let result := w.addGroupStatus
    let w1 := { w with calls := w.calls ++ [FarmCall.addGroup n] }
    let w2 :=
      if result == RStatus.Success then
        match w1.groupsCache with
        | some l => { w1 with groupsCache := some (l ++ [n]) }
        | none => w1
      else w1
    Except.ok (w2, result == RStatus.Success)
  else Except.error PyErr.attributeError

/-- An object handed to Python `next()` by the delete member checks: a
    GroupSlaves sequence (it inherits __iter__ from the Sequence mixin but
    defines no __next__, so it is not an iterator), or a `map` object (a
    genuine iterator over its pending elements). -/
inductive PyIterObj where
  | sequenceObj (items : List PyStr)
  | mapIterator (pending : List PyStr)
deriving DecidableEq, Repr

/-- Python builtin next(): TypeError on a non-iterator, StopIteration on an
    exhausted iterator, otherwise the next element. -/
def pyNext : PyIterObj → Except PyErr (PyStr × PyIterObj)
  | PyIterObj.sequenceObj _ => Except.error PyErr.typeError
  | PyIterObj.mapIterator [] => Except.error PyErr.stopIteration
  | PyIterObj.mapIterator (x :: r) => Except.ok (x, PyIterObj.mapIterator r)

/-- Names bound in the module scope of pools.py at runtime.  The import of
    Slave sits inside an `if TYPE_CHECKING:` block, so it is absent when the
    module actually runs. -/
def poolsModuleScope : List String :=
  ["logging", "defaultdict", "Enum", "Any", "Dict", "Iterable", "Generator",
   "List", "Optional", "Tuple", "Union", "TYPE_CHECKING", "DeadlineItem",
   "DeadlineList", "NOT_SET", "api", "logger", "Pool", "SlavePools"]

/-- Name resolution in pools.py module scope. -/
def poolsModuleHas (s : String) : Bool := poolsModuleScope.contains s

/-- Embeds pools.py Pool.slaves (lines 54-57): `map(Slave, self._slaves)`.
    Evaluating the name Slave raises NameError at runtime (it is bound only
    under TYPE_CHECKING); were it bound, the property would yield a map
    iterator over the slave names in the pool. -/
def poolSlavesProp (w : FarmWorld) (p : PyStr) : Except PyErr PyIterObj :=
  if poolsModuleHas ("Slave") then
    Except.ok (PyIterObj.mapIterator (w.poolSlaves p))
  else Except.error PyErr.nameError

/-- Embeds groups.py Group.slaves (lines 54-58): a GroupSlaves sequence over
    the slave names assigned to the group. -/
def groupSlavesProp (w : FarmWorld) (g : PyStr) : PyIterObj :=
  PyIterObj.sequenceObj (w.groupSlaves g)

/-- The unconditional part of pools.py Pool.delete (lines 87-94): remote
    DeletePool, remove the name from the all-names cache only when the
    status is Success and the cache is populated (list.remove raises
    ValueError when the name is absent from the cached list), return whether
    the status is Success. -/
def poolDeleteCore (w : FarmWorld) (n : PyStr) : Except PyErr (FarmWorld × Bool) :=
  let result := w.deletePoolStatus
  let w1 := { w with calls := w.calls ++ [FarmCall.deletePool n] }
  if result == RStatus.Success then
    match w1.poolsCache with
    | some l =>
      match removeFirstExact l n with
      | some l2 => Except.ok ({ w1 with poolsCache := some l2 }, true)
      | none => Except.error PyErr.valueError
    | none => Except.ok (w1, true)
  else Except.ok (w1, false)

/-- Embeds pools.py Pool.delete (lines 70-94): unless force is set, probe
    the member iterator with next(); StopIteration is caught and the delete
    proceeds, a yielded member aborts with False, and any other exception
    propagates.  Evaluating `self.slaves` itself raises NameError (see
    poolSlavesProp), so the probe never completes. -/
def poolDelete (w : FarmWorld) (n : PyStr) (force : Bool) :
    Except PyErr (FarmWorld × Bool) :=
  if force then poolDeleteCore w n
  else
    match poolSlavesProp w n with
    | Except.error e => Except.error e
    | Except.ok it =>
      match pyNext it with
      | Except.error PyErr.stopIteration => poolDeleteCore w n
      | Except.error e => Except.error e
      | Except.ok _ => Except.ok (w, false)

/-- The unconditional part of groups.py Group.delete (lines 93-100): remote
    DeleteGroup, cache update, status boolean, as in poolDeleteCore. -/
def groupDeleteCore (w : FarmWorld) (n : PyStr) : Except PyErr (FarmWorld × Bool) :=
  let result := w.deleteGroupStatus
  let w1 := { w with calls := w.calls ++ [FarmCall.deleteGroup n] }
  if result == RStatus.Success then
    match w1.groupsCache with
    | some l =>
      match removeFirstExact l n with
      | some l2 => Except.ok ({ w1 with groupsCache := some l2 }, true)
      | none => Except.error PyErr.valueError
    | none => Except.ok (w1, true)
  else Except.ok (w1, false)

/-- Embeds groups.py Group.delete (lines 76-100): unless force is set, probe
    `next(self.slaves)`; self.slaves is a GroupSlaves sequence, not an
    iterator, so next() raises TypeError, which is not the caught
    StopIteration and propagates. -/
def groupDelete (w : FarmWorld) (n : PyStr) (force : Bool) :
    Except PyErr (FarmWorld × Bool) :=
  if force then groupDeleteCore w n
  else
    match pyNext (groupSlavesProp w n) with
    | Except.error PyErr.stopIteration => groupDeleteCore w n
    | Except.error e => Except.error e
    | Except.ok _ => Except.ok (w, false)

/- ---------------------------------------------------------------------
   slaves.py: the per-name info cache and lazy fetching
   --------------------------------------------------------------------- -/

/-- The raw info dict of a slave, modelled as an association list. -/
abbrev InfoBlob := List (PyStr × PyStr)

/-- World state for info fetching: the contents of the class-level
    Slave._INFO_CACHE cells (none models the NOT_SET default the defaultdict
    yields), the remote info for each slave name, and a count of remote
    GetSlaveInfo calls issued. -/
structure InfoWorld where
  cacheCells : PyStr → Option InfoBlob
  remoteInfo : PyStr → InfoBlob
  fetches : Nat

/-- A Slave instance: its name and its instance-level `_info` attribute. -/
structure SlaveInstance where
  name : PyStr
  instInfo : Option InfoBlob
deriving Repr

/-- Embeds slaves.py Slave.__init__ (lines 78-83): copy the current value of
    the class cache cell into the instance attribute. -/
def slaveInit (w : InfoWorld) (n : PyStr) : SlaveInstance := ⟨n, w.cacheCells n⟩

/-- Embeds slaves.py Slave.info (lines 99-104): when the instance attribute
    is the NOT_SET sentinel, fetch from the remote service and assign the
    result to `self._info` only — the source never writes the fetched value
    back into Slave._INFO_CACHE, so the world's cache cells are unchanged. -/
def slaveInfoRead (w : InfoWorld) (s : SlaveInstance) :
    InfoWorld × SlaveInstance × InfoBlob :=
  match s.instInfo with
  | some v => (w, s, v)
  | none =>
    let v := w.remoteInfo s.name
    ({ w with fetches := w.fetches + 1 }, { s with instInfo := some v }, v)

/- ---------------------------------------------------------------------
   slaves.py: the Status enumeration and the status property
   --------------------------------------------------------------------- -/

/-- Embeds slaves.py Status (lines 20-31). -/
inductive SlaveStatus where
  | Unknown
  | Rendering
  | Idle
  | Offline
  | Stalled
  | StartingJob
  | HouseCleaning
deriving DecidableEq, Repr

/-- The enum call Status(code): the member with that value, ValueError for
    any other code (values from slaves.py lines 25-31). -/
def statusOfCode (n : Nat) : Option SlaveStatus :=
  if n = 0 then some SlaveStatus.Unknown
  else if n = 1 then some SlaveStatus.Rendering
  else if n = 2 then some SlaveStatus.Idle
  else if n = 3 then some SlaveStatus.Offline
  else if n = 4 then some SlaveStatus.Stalled
  else if n = 5 then some SlaveStatus.StartingJob
  else if n = 9 then some SlaveStatus.HouseCleaning
  else none

/-- The attributes a Slave instance resolves: instance attributes assigned
    in DeadlineItem.__init__ and Slave.__init__ plus the methods and
    properties defined on Slave and DeadlineItem in the source. -/
def slaveAttributeNames : List String :=
  ["name", "_info", "_settings", "all", "exists", "lower", "upper",
   "info", "settings", "update_settings", "status", "offline", "idle",
   "rendering", "stalled", "enabled", "disabled", "enable", "disable",
   "pools", "groups", "extra_info"]

/-- Attribute resolution on a Slave instance. -/
def slaveHasAttribute (a : String) : Bool := slaveAttributeNames.contains a

/-- Embeds slaves.py Slave.status (lines 166-169): the source evaluates
    `self.data['Stat']`, and `data` is not among the attributes Slave
    defines, so the property raises AttributeError.  Were the attribute
    resolvable to the info dict, the property would pass the Stat code to
    the Status enum. -/
def slaveStatusProp (info : SDict) : Except PyErr SlaveStatus :=
  if slaveHasAttribute ("data") then
    match lookupS (strName ("Stat")) info with
    | some (SVal.prim n) =>
      match statusOfCode n with
      | some st => Except.ok st
      | none => Except.error PyErr.valueError
    | _ => Except.error PyErr.keyError
  else Except.error PyErr.attributeError

/-- Embeds slaves.py Slave.offline (lines 171-174): status == Status.Offline;
    the status read itself raises. -/
def slaveOfflineProp (info : SDict) : Except PyErr Bool :=
  (slaveStatusProp info).map (fun st => st == SlaveStatus.Offline)

/-- Embeds slaves.py Slave.idle (lines 176-179): status in (Idle,
    HouseCleaning). -/
def slaveIdleProp (info : SDict) : Except PyErr Bool :=
  (slaveStatusProp info).map
    (fun st => st == SlaveStatus.Idle || st == SlaveStatus.HouseCleaning)

/-- Embeds slaves.py Slave.rendering (lines 181-184). -/
def slaveRenderingProp (info : SDict) : Except PyErr Bool :=
  (slaveStatusProp info).map (fun st => st == SlaveStatus.Rendering)

/-- Embeds slaves.py Slave.stalled (lines 186-189). -/
def slaveStalledProp (info : SDict) : Except PyErr Bool :=
  (slaveStatusProp info).map (fun st => st == SlaveStatus.Stalled)

/- ---------------------------------------------------------------------
   Helper lemmas
   --------------------------------------------------------------------- -/

/-- Lower-casing after upper-casing gives the same code point as
    lower-casing directly (ASCII). -/
theorem lowerChar_upperChar (c : Nat) : lowerChar (upperChar c) = lowerChar c := by
  simp only [lowerChar, upperChar]
  split_ifs <;> omega

/-- Lower-casing after upper-casing gives the same string as lower-casing. -/
theorem pyLower_pyUpper (s : PyStr) : pyLower (pyUpper s) = pyLower s := by
  induction s with
  | nil => rfl
  | cons c r ih =>
    simp only [pyLower, pyUpper, List.map_cons] at ih ⊢
    rw [lowerChar_upperChar]
    exact congrArg _ ih

/-- nameEq is reflexive. -/
theorem nameEq_refl (a : PyStr) : nameEq a a = true := by simp [nameEq]

/-- Names that differ case-insensitively differ exactly. -/
theorem nameEq_exact_ne {a b : PyStr} (h : nameEq a b = false) : a ≠ b := by
  intro hab
  subst hab
  rw [nameEq_refl] at h
  cases h

/-- Filtering a group out of a membership list leaves no element matching it. -/
theorem containsName_filter_drop (l : List PyStr) (g : PyStr) :
    containsName (l.filter (fun y => !(nameEq y g))) g = false := by
  induction l with
  | nil => rfl
  | cons y r ih =>
    cases hy : nameEq y g with
    | true =>
      rw [List.filter_cons]
      simp only [hy, Bool.not_true, Bool.false_eq_true, if_false]
      exact ih
    | false =>
      simp only [containsName] at ih ⊢
      simp [List.filter_cons, hy, ih]

/-- A list containing a match always yields a result from removeFirstName. -/
theorem removeFirstName_isSome (l : List PyStr) (g : PyStr)
    (h : containsName l g = true) : ∃ l2, removeFirstName l g = some l2 := by
  induction l with
  | nil => simp [containsName] at h
  | cons y r ih =>
    cases hy : nameEq y g with
    | true => exact ⟨r, by simp [removeFirstName, hy]⟩
    | false =>
      have h2 : containsName r g = true := by
        simpa [containsName, hy] using h
      obtain ⟨l2, hl2⟩ := ih h2
      exact ⟨y :: l2, by simp [removeFirstName, hy, hl2]⟩

/-- Success case of Python list.remove on DeadlineItems: the result drops
    exactly the first matching element. -/
theorem removeFirstItem_some (l : List DeadlineItem) (t : DeadlineItem) :
    ∀ l2, removeFirstItem l t = some l2 →
      ∃ pre it post, l = pre ++ it :: post ∧
        (∀ y ∈ pre, itemEq y t = false) ∧ itemEq it t = true ∧ l2 = pre ++ post := by
  induction l with
  | nil => intro l2 h; simp [removeFirstItem] at h
  | cons y r ih =>
    intro l2 h
    unfold removeFirstItem at h
    cases hy : itemEq y t with
    | true =>
      rw [hy] at h
      simp only [if_true] at h
      obtain rfl : r = l2 := by simpa using h
      exact ⟨[], y, r, rfl, by simp, hy, rfl⟩
    | false =>
      rw [hy] at h
      simp only [Bool.false_eq_true, if_false, Option.map_eq_some'] at h
      obtain ⟨l3, hl3, rfl⟩ := h
      obtain ⟨pre, it, post, hsplit, hpre, hit, hrest⟩ := ih l3 hl3
      refine ⟨y :: pre, it, post, by simp [hsplit], ?_, hit, by simp [hrest]⟩
      intro z hz
      rcases List.mem_cons.mp hz with hz1 | hz2
      · subst hz1; exact hy
      · exact hpre z hz2

/-- Failure case of Python list.remove on DeadlineItems: no element matches. -/
theorem removeFirstItem_none (l : List DeadlineItem) (t : DeadlineItem) :
    removeFirstItem l t = none ↔ ∀ y ∈ l, itemEq y t = false := by
  induction l with
  | nil => simp [removeFirstItem]
  | cons y r ih =>
    unfold removeFirstItem
    cases hy : itemEq y t with
    | true => simp [hy]
    | false => simp [hy, ih]

/-- Reading back a key just written into a settings dict. -/
theorem lookupS_setS (k : PyStr) (v : SVal) (s : SDict) :
    lookupS k (setS k v s) = some v := by
  induction s with
  | nil => simp [setS, lookupS]
  | cons kv r ih =>
    obtain ⟨k1, v1⟩ := kv
    by_cases h : k1 = k
    · simp [setS, lookupS, h]
    · simp [setS, lookupS, h, ih]

/-- Writing back the value a key already holds leaves the dict unchanged. -/
theorem setS_lookup_self (k : PyStr) (w : SVal) (s : SDict)
    (h : lookupS k s = some w) : setS k w s = s := by
  induction s with
  | nil => simp [lookupS] at h
  | cons kv r ih =>
    obtain ⟨k1, v1⟩ := kv
    by_cases hk : k1 = k
    · simp only [lookupS, if_pos hk, Option.some.injEq] at h
      simp [setS, hk, h]
    · simp only [lookupS, if_neg hk] at h
      simp [setS, hk, ih h]

/-- Computation of Slave._write_settings for a single scalar keyword. -/
theorem writeSettings_single_prim (k : PyStr) (n : Nat) (s : SDict) :
    writeSettings [(k, SVal.prim n)] s =
      match lookupS k s with
      | none => none
      | some w =>
        if svalIsPrimEq w n then some (s, false)
        else some (setS k (SVal.prim n) s, true) := by
  unfold writeSettings
  cases hl : lookupS k s with
  | none => rfl
  | some w =>
    unfold writeSettingsVal
    cases hw : svalIsPrimEq w n with
    | true =>
      simp only [hw, if_true]
      rw [setS_lookup_self k w s hl]
      unfold writeSettings
      rfl
    | false =>
      simp only [hw, Bool.false_eq_true, if_false]
      unfold writeSettings
      rfl

/- ---------------------------------------------------------------------
   Claim theorems
   --------------------------------------------------------------------- -/

/-- C5: for every name n, Identity(n) equals Identity(n.upper()) — equality
    lower-cases both names — and hashing is consistent with this equality:
    two items of the same type that compare equal have the same repr string
    (the hash is the hash of that string, so equal reprs give equal hashes). -/
theorem identity_case_insensitive_eq_hash :
    (∀ n : PyStr, itemEq (mkItem n) (mkItem (pyUpper n)) = true) ∧
    (∀ (t : PyStr) (a b : DeadlineItem), itemEq a b = true → itemRepr t a = itemRepr t b) := by
  constructor
  · intro n
    simp [itemEq, mkItem, pyLower_pyUpper n]
  · intro t a b h
    simp only [itemEq, beq_iff_eq] at h
    simp [itemRepr, h]

/-- Witness for C5 at the concrete name Node01 and type name Slave. -/
theorem identity_case_insensitive_eq_hash_witness :
    itemEq (mkItem (strName ("Node01"))) (mkItem (pyUpper (strName ("Node01")))) = true ∧
    itemRepr (strName ("Slave")) (mkItem (strName ("NODE01"))) =
      itemRepr (strName ("Slave")) (mkItem (strName ("node01"))) :=
  ⟨identity_case_insensitive_eq_hash.1 (strName ("Node01")),
   identity_case_insensitive_eq_hash.2 (strName ("Slave")) _ _ (by decide)⟩

/-- C1: each DeadlineList membership mutation fires exactly one hook:
    append leaves the converted item last and fires exactly one trigger_add
    with that item; remove routes through trigger_remove; setitem, insert,
    pop and delitem each fire exactly one trigger_set whose argument is the
    snapshot taken before the mutation; and a full-slice assignment of
    [a, b, c] leaves the converted items as the contents. -/
theorem deadlinelist_mutation_hooks (st : DLState) (x y a b c : PyStr) (i : Nat) :
    ((dlAppend st x).items = st.items ++ [mkItem x] ∧
     (dlAppend st x).events = st.events ++ [DLEvent.add (mkItem x)]) ∧
    (∀ st2, dlRemove st x = some st2 →
      st2.events = st.events ++ [DLEvent.rem x]) ∧
    (∀ st2, dlSetIndex st i y = some st2 →
      st2.events = st.events ++ [DLEvent.set st.items]) ∧
    ((dlInsert st i y).events = st.events ++ [DLEvent.set st.items]) ∧
    (∀ p, dlPop st i = some p →
      p.1.events = st.events ++ [DLEvent.set st.items]) ∧
    (∀ st2, dlDelItem st i = some st2 →
      st2.events = st.events ++ [DLEvent.set st.items]) ∧
    ((dlSetSlice st [a, b, c]).items = [mkItem a, mkItem b, mkItem c] ∧
     (dlSetSlice st [a, b, c]).events = st.events ++ [DLEvent.set st.items]) := by
  refine ⟨⟨rfl, rfl⟩, ?_, ?_, rfl, ?_, ?_, ⟨rfl, rfl⟩⟩
  · intro st2 h
    simp only [dlRemove, Option.map_eq_some'] at h
    obtain ⟨l2, _, rfl⟩ := h
    rfl
  · intro st2 h
    simp only [dlSetIndex] at h
    split at h
    · obtain rfl : _ = st2 := by simpa using h
      rfl
    · cases h
  · intro p h
    simp only [dlPop] at h
    split at h
    · obtain rfl : _ = p := by simpa using h
      rfl
    · cases h
  · intro st2 h
    simp only [dlDelItem] at h
    split at h
    · obtain rfl : _ = st2 := by simpa using h
      rfl
    · cases h

/-- A concrete DeadlineList state for the witnesses: two items, no hooks
    fired yet. -/
def dlW0 : DLState :=
  ⟨[mkItem (strName ("alpha")), mkItem (strName ("beta"))], []⟩

/-- Witness for C1 at a concrete two-element list. -/
theorem deadlinelist_mutation_hooks_witness :
    ((dlAppend dlW0 (strName ("new"))).items = dlW0.items ++ [mkItem (strName ("new"))] ∧
     (dlAppend dlW0 (strName ("new"))).events =
       dlW0.events ++ [DLEvent.add (mkItem (strName ("new")))]) ∧
    ((⟨[mkItem (strName ("alpha"))], [DLEvent.rem (strName ("beta"))]⟩ : DLState).events =
      dlW0.events ++ [DLEvent.rem (strName ("beta"))]) ∧
    ((⟨[mkItem (strName ("x")), mkItem (strName ("beta"))],
       [DLEvent.set dlW0.items]⟩ : DLState).events =
      dlW0.events ++ [DLEvent.set dlW0.items]) ∧
    ((⟨[mkItem (strName ("beta"))], [DLEvent.set dlW0.items]⟩ : DLState).events =
      dlW0.events ++ [DLEvent.set dlW0.items]) ∧
    ((dlSetSlice dlW0 [strName ("a"), strName ("b"), strName ("c")]).items =
      [mkItem (strName ("a")), mkItem (strName ("b")), mkItem (strName ("c"))]) := by
  have h1 := deadlinelist_mutation_hooks dlW0 (strName ("new")) (strName ("x"))
    (strName ("a")) (strName ("b")) (strName ("c")) 0
  have h2 := deadlinelist_mutation_hooks dlW0 (strName ("beta")) (strName ("x"))
    (strName ("a")) (strName ("b")) (strName ("c")) 0
  exact ⟨h1.1,
    h2.2.1 _ (by decide),
    h1.2.2.1 _ (by decide),
    h1.2.2.2.2.2.1 _ (by decide),
    h1.2.2.2.2.2.2.1⟩

/-- C6: DeadlineList.remove with a present value removes exactly the first
    matching element (DeadlineItem equality) and fires trigger_remove; with
    an absent value it fails with ValueError — equivalently, it fails
    exactly when no element matches — leaving the sequence unchanged, since
    list.remove raises before any mutation or hook. -/
theorem deadlinelist_remove_first_or_fail (st : DLState) (x : PyStr) :
    (∀ st2, dlRemove st x = some st2 →
      ∃ pre it post, st.items = pre ++ it :: post ∧
        (∀ y ∈ pre, itemEq y (mkItem x) = false) ∧
        itemEq it (mkItem x) = true ∧
        st2.items = pre ++ post ∧
        st2.events = st.events ++ [DLEvent.rem x]) ∧
    (dlRemove st x = none ↔ ∀ y ∈ st.items, itemEq y (mkItem x) = false) := by
  constructor
  · intro st2 h
    simp only [dlRemove, Option.map_eq_some'] at h
    obtain ⟨l2, hl2, rfl⟩ := h
    obtain ⟨pre, it, post, h1, h2, h3, h4⟩ := removeFirstItem_some _ _ _ hl2
    exact ⟨pre, it, post, h1, h2, h3, h4, rfl⟩
  · simp only [dlRemove, Option.map_eq_none']
    exact removeFirstItem_none _ _

/-- Witness for C6: removing beta from the concrete list (drops exactly the
    first match), and removing an absent name fails. -/
theorem deadlinelist_remove_first_or_fail_witness :
    (∃ pre it post, dlW0.items = pre ++ it :: post ∧
      (∀ y ∈ pre, itemEq y (mkItem (strName ("beta"))) = false) ∧
      itemEq it (mkItem (strName ("beta"))) = true ∧
      (⟨[mkItem (strName ("alpha"))], [DLEvent.rem (strName ("beta"))]⟩ : DLState).items =
        pre ++ post ∧
      (⟨[mkItem (strName ("alpha"))], [DLEvent.rem (strName ("beta"))]⟩ : DLState).events =
        dlW0.events ++ [DLEvent.rem (strName ("beta"))]) ∧
    dlRemove dlW0 (strName ("gamma")) = none := by
  constructor
  · exact (deadlinelist_remove_first_or_fail dlW0 (strName ("beta"))).1 _ (by decide)
  · exact (deadlinelist_remove_first_or_fail dlW0 (strName ("gamma"))).2.mpr (by decide)

/-- C4: with the cached settings already reporting Enable true,
    update_settings(Enable=True) returns success without a remote save call
    and without touching the state; with Enable previously false (and the
    remote save answering Success), it returns success after exactly one
    remote save call, with the cached setting now true. -/
theorem update_settings_enable_noop_or_save (st : SlaveSettingsState) :
    (lookupS (strName ("Enable")) st.settings = some (SVal.prim 1) →
      updateSettings st [(strName ("Enable"), SVal.prim 1)] = some (st, true)) ∧
    (lookupS (strName ("Enable")) st.settings = some (SVal.prim 0) →
      st.saveResult = RStatus.Success →
      updateSettings st [(strName ("Enable"), SVal.prim 1)] =
        some ({ st with
                  settings := setS (strName ("Enable")) (SVal.prim 1) st.settings,
                  saveCalls := st.saveCalls + 1 }, true) ∧
      lookupS (strName ("Enable")) (setS (strName ("Enable")) (SVal.prim 1) st.settings) =
        some (SVal.prim 1)) := by
  constructor
  · intro h
    unfold updateSettings
    rw [writeSettings_single_prim, h]
    simp [svalIsPrimEq]
  · intro h hs
    constructor
    · unfold updateSettings
      rw [writeSettings_single_prim, h]
      simp [svalIsPrimEq, hs]
    · exact lookupS_setS _ _ _

/-- Settings state for the witnesses: Enable already true. -/
def stEnabled : SlaveSettingsState :=
  ⟨[(strName ("Enable"), SVal.prim 1)], RStatus.Success, 0⟩

/-- Settings state for the witnesses: Enable false, remote save succeeding. -/
def stDisabled : SlaveSettingsState :=
  ⟨[(strName ("Enable"), SVal.prim 0)], RStatus.Success, 0⟩

/-- Witness for C4 at concrete settings states. -/
theorem update_settings_enable_noop_or_save_witness :
    updateSettings stEnabled [(strName ("Enable"), SVal.prim 1)] = some (stEnabled, true) ∧
    (updateSettings stDisabled [(strName ("Enable"), SVal.prim 1)] =
      some ({ stDisabled with
                settings := setS (strName ("Enable")) (SVal.prim 1) stDisabled.settings,
                saveCalls := stDisabled.saveCalls + 1 }, true) ∧
     lookupS (strName ("Enable"))
       (setS (strName ("Enable")) (SVal.prim 1) stDisabled.settings) =
       some (SVal.prim 1)) :=
  ⟨(update_settings_enable_noop_or_save stEnabled).1 rfl,
   (update_settings_enable_noop_or_save stDisabled).2 rfl rfl⟩

/-- C10: when the keyword value differs from the cached setting and the
    remote save returns a status that is neither Success nor the
    No-updates-required sentinel, update_settings returns false, yet the
    cached settings dict has already been mutated to the new value (one
    remote save call was made, and nothing rolls the local change back). -/
theorem update_settings_failure_keeps_mutation (st : SlaveSettingsState)
    (k : PyStr) (m n : Nat) (e : PyStr)
    (h1 : lookupS k st.settings = some (SVal.prim m))
    (h2 : m ≠ n)
    (h3 : st.saveResult = RStatus.Other e) :
    updateSettings st [(k, SVal.prim n)] =
      some ({ st with settings := setS k (SVal.prim n) st.settings,
                      saveCalls := st.saveCalls + 1 }, false) ∧
    lookupS k (setS k (SVal.prim n) st.settings) = some (SVal.prim n) := by
  constructor
  · unfold updateSettings
    rw [writeSettings_single_prim, h1]
    have hne : svalIsPrimEq (SVal.prim m) n = false := by
      simp [svalIsPrimEq, h2]
    simp [hne, h3]
  · exact lookupS_setS _ _ _

/-- Settings state for the C10 witness: Enable false, remote save failing. -/
def stFailing : SlaveSettingsState :=
  ⟨[(strName ("Enable"), SVal.prim 0)], RStatus.Other (strName ("Error")), 0⟩

/-- Witness for C10 at a concrete failing save. -/
theorem update_settings_failure_keeps_mutation_witness :
    updateSettings stFailing [(strName ("Enable"), SVal.prim 1)] =
      some ({ stFailing with
                settings := setS (strName ("Enable")) (SVal.prim 1) stFailing.settings,
                saveCalls := stFailing.saveCalls + 1 }, false) ∧
    lookupS (strName ("Enable"))
      (setS (strName ("Enable")) (SVal.prim 1) stFailing.settings) =
      some (SVal.prim 1) :=
  update_settings_failure_keeps_mutation stFailing (strName ("Enable")) 0 1
    (strName ("Error")) rfl (by decide) rfl

/-- C2: assigning a group's slave list [s1, s2] when the previous membership
    was [s1, s3] diffs the two as sets, issues exactly one remote
    SetGroupsForSlave call assigning the group to the added slave s2,
    cascades exactly one RemoveGroupFromSlave call for the removed slave s3
    (patching that slave instance's local cache to grps2, its membership
    with the group dropped), and afterwards a fresh read of Slave(s2).groups
    contains the group while Slave(s3).groups does not. -/
theorem group_slaves_set_bidirectional (w : GrpWorld) (g s1 s2 s3 : PyStr)
    (h12 : nameEq s1 s2 = false) (h32 : nameEq s3 s2 = false)
    (h13 : nameEq s1 s3 = false) (h23 : nameEq s2 s3 = false)
    (hmem : containsName (w.slaveGrps s3) g = true) :
    ∃ w2 grps2,
      groupSlavesTriggerSet w g [s1, s3] [s1, s2] = Except.ok (w2, [(s3, grps2)]) ∧
      removeFirstName (w.slaveGrps s3) g = some grps2 ∧
      w2.calls = w.calls ++
        [GrpCall.setGroupsForSlave [s2] g, GrpCall.removeGroupFromSlave s3 g] ∧
      containsName (slaveGroupsFresh w2 s2) g = true ∧
      containsName (slaveGroupsFresh w2 s3) g = false := by
  have hs23 : s2 ≠ s3 := nameEq_exact_ne h23
  have hadded : ([s1, s2].filter (fun s => !(containsName [s1, s3] s))) = [s2] := by
    simp [containsName, nameEq_refl, h12, h32]
  have hremoved : ([s1, s3].filter (fun s => !(containsName [s1, s2] s))) = [s3] := by
    simp [containsName, nameEq_refl, h13, h23]
  have hcontains : ([s2].contains s3) = false := by
    simp [List.contains]
    exact fun h => hs23 h.symm
  obtain ⟨grps2, hg2⟩ := removeFirstName_isSome (w.slaveGrps s3) g hmem
  unfold groupSlavesTriggerSet
  rw [hadded, hremoved]
  unfold cascadeRemovals slaveGroupsRemove setGroupsRemote
  simp only [hcontains, Bool.false_eq_true, if_false, hg2]
  refine ⟨_, grps2, rfl, rfl, by simp, ?_, ?_⟩
  · simp only [slaveGroupsFresh]
    simp [hs23, containsName, nameEq_refl]
  · simp only [slaveGroupsFresh]
    simp [hcontains, containsName_filter_drop]

/-- World for the C2 witness: remotely, slave s3 (and only s3) is in group
    g1; no calls issued yet. -/
def grpW0 : GrpWorld :=
  { slaveGrps := fun s => if s = strName ("s3") then [strName ("g1")] else [],
    calls := [] }

/-- Witness for C2 at concrete names g1, s1, s2, s3. -/
theorem group_slaves_set_bidirectional_witness :
    ∃ w2 grps2,
      groupSlavesTriggerSet grpW0 (strName ("g1"))
          [strName ("s1"), strName ("s3")] [strName ("s1"), strName ("s2")] =
        Except.ok (w2, [(strName ("s3"), grps2)]) ∧
      removeFirstName (grpW0.slaveGrps (strName ("s3"))) (strName ("g1")) = some grps2 ∧
      w2.calls = grpW0.calls ++
        [GrpCall.setGroupsForSlave [strName ("s2")] (strName ("g1")),
         GrpCall.removeGroupFromSlave (strName ("s3")) (strName ("g1"))] ∧
      containsName (slaveGroupsFresh w2 (strName ("s2"))) (strName ("g1")) = true ∧
      containsName (slaveGroupsFresh w2 (strName ("s3"))) (strName ("g1")) = false :=
  group_slaves_set_bidirectional grpW0 (strName ("g1")) (strName ("s1"))
    (strName ("s2")) (strName ("s3"))
    (by decide) (by decide) (by decide) (by decide) (by decide)

/-- World for the C3 and C7 theorems: every group and pool has one assigned
    slave, all remote statuses are Success, and the all-names caches are in
    the NOT_SET state. -/
def farmW0 : FarmWorld :=
  { poolsCache := none, groupsCache := none,
    poolSlaves := fun _ => [strName ("s1")],
    groupSlaves := fun _ => [strName ("s1")],
    addPoolStatus := RStatus.Success, deletePoolStatus := RStatus.Success,
    addGroupStatus := RStatus.Success, deleteGroupStatus := RStatus.Success,
    calls := [] }

/-- C3 (defect): the membership check of delete() crashes instead of
    returning false — Group.delete probes next() on a GroupSlaves sequence
    that is not an iterator (TypeError), and Pool.delete evaluates the name
    Slave which pools.py binds only under TYPE_CHECKING (NameError) — in
    every world, members or not; with force=True both deletes do proceed
    straight to the remote delete call, as shown on a world whose entities
    each have one member. -/
theorem delete_member_check_defect :
    (∀ (w : FarmWorld) (g : PyStr), groupDelete w g false = Except.error PyErr.typeError) ∧
    (∀ (w : FarmWorld) (p : PyStr), poolDelete w p false = Except.error PyErr.nameError) ∧
    groupDelete farmW0 (strName ("g1")) true =
      Except.ok ({ farmW0 with calls := [FarmCall.deleteGroup (strName ("g1"))] }, true) ∧
    poolDelete farmW0 (strName ("p1")) true =
      Except.ok ({ farmW0 with calls := [FarmCall.deletePool (strName ("p1"))] }, true) :=
  ⟨fun _ _ => rfl, fun _ _ => rfl, rfl, rfl⟩

/-- C7 (defect): Pool.create returns true exactly when the remote status is
    Success, records exactly one remote AddPool call, and mutates the
    all-names cache only on Success (and only when already populated) —
    but Group.create never reaches its status handling: it reads the
    nonexistent connection attribute Group and raises AttributeError. -/
theorem create_status_and_cache_defect :
    (∀ (w : FarmWorld) (n : PyStr), groupCreate w n = Except.error PyErr.attributeError) ∧
    (∀ (w : FarmWorld) (n : PyStr),
      (poolCreate w n).2 = (w.addPoolStatus == RStatus.Success)) ∧
    (∀ (w : FarmWorld) (n : PyStr),
      (poolCreate w n).1.calls = w.calls ++ [FarmCall.addPool n]) ∧
    (∀ (w : FarmWorld) (n : PyStr),
      (poolCreate w n).1.poolsCache =
        if w.addPoolStatus == RStatus.Success then
          (match w.poolsCache with
           | some l => some (l ++ [n])
           | none => none)
        else w.poolsCache) := by
  refine ⟨fun w n => rfl, fun w n => rfl, fun w n => ?_, fun w n => ?_⟩
  · simp only [poolCreate]
    cases hb : (w.addPoolStatus == RStatus.Success)
    · simp [hb]
    · simp only [hb, if_true]
      cases w.poolsCache <;> simp
  · simp only [poolCreate]
    cases hb : (w.addPoolStatus == RStatus.Success)
    · simp [hb]
    · simp only [hb, if_true]
      cases w.poolsCache <;> simp

/-- World for the C8 theorem: empty cache cells, fixed remote info. -/
def infoW0 : InfoWorld :=
  { cacheCells := fun _ => none,
    remoteInfo := fun _ => [(strName ("Grps"), strName ("g1"))],
    fetches := 0 }

/-- C8 (defect): the per-name info cache is never shared across instances.
    After a first Slave(node1) instance reads its info (one remote fetch), a
    subsequently constructed Slave(node1) still starts from the NOT_SET
    sentinel — it does not observe any cached value — and reading its info
    issues a second remote fetch, because the fetched value is stored only
    on the instance, never into Slave._INFO_CACHE. -/
theorem slave_info_cache_never_shared :
    (slaveInfoRead infoW0 (slaveInit infoW0 (strName ("node1")))).1.fetches = 1 ∧
    (slaveInit (slaveInfoRead infoW0 (slaveInit infoW0 (strName ("node1")))).1
      (strName ("node1"))).instInfo = none ∧
    (slaveInfoRead (slaveInfoRead infoW0 (slaveInit infoW0 (strName ("node1")))).1
      (slaveInit (slaveInfoRead infoW0 (slaveInit infoW0 (strName ("node1")))).1
        (strName ("node1")))).1.fetches = 2 :=
  ⟨rfl, rfl, rfl⟩

/-- C9 (defect): the Status enumeration carries exactly the documented
    values, but the status property (and every predicate derived from it)
    never returns a member: it reads self.data, an attribute Slave does not
    define, and raises AttributeError for every info dict. -/
theorem slave_status_attribute_defect :
    (∀ info : SDict, slaveStatusProp info = Except.error PyErr.attributeError) ∧
    (∀ info : SDict, slaveOfflineProp info = Except.error PyErr.attributeError) ∧
    (∀ info : SDict, slaveIdleProp info = Except.error PyErr.attributeError) ∧
    (∀ info : SDict, slaveRenderingProp info = Except.error PyErr.attributeError) ∧
    (∀ info : SDict, slaveStalledProp info = Except.error PyErr.attributeError) ∧
    statusOfCode 0 = some SlaveStatus.Unknown ∧
    statusOfCode 1 = some SlaveStatus.Rendering ∧
    statusOfCode 2 = some SlaveStatus.Idle ∧
    statusOfCode 3 = some SlaveStatus.Offline ∧
    statusOfCode 4 = some SlaveStatus.Stalled ∧
    statusOfCode 5 = some SlaveStatus.StartingJob ∧
    statusOfCode 9 = some SlaveStatus.HouseCleaning ∧
    statusOfCode 6 = none :=
  ⟨fun _ => rfl, fun _ => rfl, fun _ => rfl, fun _ => rfl, fun _ => rfl,
   rfl, rfl, rfl, rfl, rfl, rfl, rfl, rfl⟩
